import Mathlib

/-!
Verification of `openpi-tpu-tools` against its natural-language specification.

The development shallowly embeds the pure decision logic of the repository:

* `src/openpi_tpu_tools/tpu.py` — the state prober `_gcloud_describe_state`,
  `TPUManager.describe`, `TPUManager.create` (argument construction and
  validation), `TPUManager.check_activity`, `TPUManager.nuke_all`;
* `src/openpi_tpu_tools/watch.py` — `_map_v4_topology`, one iteration of the
  `watch_and_run` loop body, and the effect of the rendered setup script
  produced by `_build_setup_script`.

Subprocess results (exit code, stdout, stderr) are passed in explicitly as
oracle values; everything downstream of them is translated directly from the
Python source.
-/

deriving instance DecidableEq for Except

/-! ## Python string primitives

Models of the Python `str` operations used by `tpu.py`, over `List Char` /
`String`.  `re` patterns are Unicode-aware in Python; the inputs handled here
(gcloud output) are ASCII, and the models implement the ASCII semantics. -/

/-- Python's `\s` character class (ASCII part): space, tab, newline, carriage
return, vertical tab, form feed.  Also used for `str.strip()`. -/
def isPySpace (c : Char) : Bool :=
  c == ' ' || c == '\t' || c == '\n' || c == '\r' || c == '\x0b' || c == '\x0c'

/-- Python `str.lower()` (ASCII). -/
def pyLower (s : String) : String :=
  ⟨s.data.map Char.toLower⟩

/-- Python `str.strip()` on a character list. -/
def pyStripL (l : List Char) : List Char :=
  ((l.dropWhile isPySpace).reverse.dropWhile isPySpace).reverse

/-- Python `str.strip()`. -/
def pyStrip (s : String) : String :=
  ⟨pyStripL s.data⟩

/-- Characters on which Python `str.splitlines()` breaks lines. -/
def isLineBreak (c : Char) : Bool :=
  c == '\n' || c == '\r' || c == '\x0b' || c == '\x0c' ||
  c == '\x1c' || c == '\x1d' || c == '\x1e' || c == '\x85' ||
  c == '\u2028' || c == '\u2029'

/-- Worker for `pySplitlinesL`: `acc` holds the current line reversed. -/
def pySplitAux (acc : List Char) : List Char → List (List Char)
  | [] => [acc.reverse]
  | '\r' :: '\n' :: rest =>
    if rest.isEmpty then [acc.reverse] else acc.reverse :: pySplitAux [] rest
  | c :: rest =>
    if isLineBreak c then
      if rest.isEmpty then [acc.reverse] else acc.reverse :: pySplitAux [] rest
    else pySplitAux (c :: acc) rest

/-- Python `str.splitlines()`: splits on line breaks (including `\r\n` as a
single break) and produces no trailing empty line; `[]` on the empty string. -/
def pySplitlinesL (l : List Char) : List (List Char) :=
  if l.isEmpty then [] else pySplitAux [] l

/-- List-prefix test (`l₁` starts the list `l₂`), used to anchor pattern
matches at a position. -/
def lsw : List Char → List Char → Bool
  | [], _ => true
  | _ :: _, [] => false
  | a :: as, b :: bs => a == b && lsw as bs

/-- `re.search` driver: does `p` match at some position of the list (every
suffix, including the empty one)? -/
def searchAux (p : List Char → Bool) : List Char → Bool
  | [] => p []
  | c :: rest => p (c :: rest) || searchAux p rest

/-! ## The state prober (`tpu.py`, `_gcloud_describe_state` / `describe`)

The subprocess result of the `gcloud … describe` call is modelled as an
explicit record; everything after the `subprocess.run` is translated
line-by-line from the source. -/

/-- Result of a `subprocess.run(..., capture_output=True, text=True)` call:
`returncode`, captured `stdout`, captured `stderr`. -/
structure Proc where
  returncode : Int
  stdout : String
  stderr : String
deriving DecidableEq

/-- Match of `re.search(r"not\s*found|404", out)` at one position: either
`not` followed by any run of whitespace then `found`, or `404`.  Since
`found` starts with a non-space character, the greedy `\s*` is exact. -/
def nfAt (l : List Char) : Bool :=
  (lsw "not".data l && lsw "found".data ((l.drop 3).dropWhile isPySpace)) ||
  lsw "404".data l

/-- `re.search(r"not\s*found|404", out)` (source line 50 of `tpu.py`). -/
def searchNotFound (l : List Char) : Bool := searchAux nfAt l

/-- Match of `re.search(r"permission_denied|forbidden|403", out)` at one
position. -/
def pdAt (l : List Char) : Bool :=
  lsw "permission_denied".data l || lsw "forbidden".data l || lsw "403".data l

/-- `re.search(r"permission_denied|forbidden|403", out)` (source line 52). -/
def searchPermDenied (l : List Char) : Bool := searchAux pdAt l

/-- Match of `re.search(r"invalid value for \[--zone\]|argument --zone", out)`
at one position. -/
def zoneAt (l : List Char) : Bool :=
  lsw "invalid value for [--zone]".data l || lsw "argument --zone".data l

/-- `re.search(r"invalid value for \[--zone\]|argument --zone", out)`
(source line 54). -/
def searchInvalidZone (l : List Char) : Bool := searchAux zoneAt l

/-- Python `proc.stderr or proc.stdout or ""`: the first non-empty capture. -/
def effOut (p : Proc) : String :=
  if p.stderr ≠ "" then p.stderr else p.stdout

/-- The lower-cased diagnostic output `out` of `_gcloud_describe_state`
(source line 49: `out = (proc.stderr or proc.stdout or "").lower()`). -/
def describeOut (p : Proc) : String := pyLower (effOut p)

/-- `_gcloud_describe_state` (`tpu.py` lines 47–56), given the completed
`describe` subprocess.  Returns `.ok (rc, state)` with `rc ∈ {0, 1, 2}`;
`.error` models the `IndexError` that line 56 raises when the diagnostic
output is non-empty but whitespace-only (`"".splitlines()[-1]`). -/
def gcloudDescribeState (p : Proc) : Except String (Nat × String) :=
  if p.returncode = 0 then
    .ok (0, if pyStrip p.stdout = "" then "UNKNOWN" else pyStrip p.stdout)
  else
    let out := describeOut p
    if searchNotFound out.data then .ok (0, "NOT_FOUND")
    else if searchPermDenied out.data then .ok (0, "PERMISSION_DENIED")
    else if searchInvalidZone out.data then .ok (2, "INVALID_ZONE")
    else if out ≠ "" then
      match pySplitlinesL (pyStripL out.data) with
      | [] => .error "IndexError: list index out of range"
      | x :: xs => .ok (1, ⟨(x :: xs).getLast (List.cons_ne_nil x xs)⟩)
    else .ok (1, "ERROR")

/-! ## Configuration and the TPU manager (`config.py`, `tpu.py`) -/

/-- `TPUEnvConfig` (`config.py`): the immutable environment-derived record. -/
structure TPUEnvConfig where
  tpu_name : String
  tpu_project : String
  tpu_zone_v4 : String
  tpu_zone_v5 : String
  tpu_zone_v6 : String
  tpu_bucket_v4 : String
  tpu_bucket_v5 : String
  tpu_bucket_v6 : String
  tpu_service_account : String
  gh_repo_name : String
  wandb_api_key : String
  gh_token : String
  gh_owner : String
deriving DecidableEq

/-- The `Literal["v4", "v5", "v6"]` generation selector. -/
inductive Version where
  | v4
  | v5
  | v6
deriving DecidableEq

/-- The literal string of a `Version`, as it appears in the Python code. -/
def Version.str : Version → String
  | .v4 => "v4"
  | .v5 => "v5"
  | .v6 => "v6"

/-- `TPUManager._zone_for` (`tpu.py` lines 66–71). -/
def zoneFor (env : TPUEnvConfig) : Version → String
  | .v4 => env.tpu_zone_v4
  | .v5 => env.tpu_zone_v5
  | .v6 => env.tpu_zone_v6

/-- `TPUManager._bucket_for` (`tpu.py` lines 73–78). -/
def bucketFor (env : TPUEnvConfig) : Version → String
  | .v4 => env.tpu_bucket_v4
  | .v5 => env.tpu_bucket_v5
  | .v6 => env.tpu_bucket_v6

/-- `TPUManager.describe` (`tpu.py` lines 80–89): `rc = 2` becomes a raised
`RuntimeError` (`.error`), any other failure is logged and degraded to the
state string `"ERROR"`, and success returns the probed state.  The
`IndexError` case of `gcloudDescribeState` also propagates as `.error`. -/
def describe (env : TPUEnvConfig) (v : Version) (p : Proc) : Except String String :=
  match gcloudDescribeState p with
  | .error e => .error e
  | .ok (rc, state) =>
    if rc = 2 then .error ("Invalid zone for " ++ v.str ++ ": " ++ zoneFor env v)
    else if rc ≠ 0 then .ok "ERROR"
    else .ok state

/-- `_map_v4_topology` (`watch.py` lines 20–24): the chip-count → topology
whitelist `{4: 2x2x1, 8: 2x2x2, 16: 2x2x4, 32: 2x4x4}`; any other count
raises `SystemExit` (`.error`).  The message omits the source's single
quotes around the count; no result below depends on its exact text. -/
def mapV4Topology (tpu_num : Int) : Except String String :=
  if tpu_num = 4 then .ok "2x2x1"
  else if tpu_num = 8 then .ok "2x2x2"
  else if tpu_num = 16 then .ok "2x2x4"
  else if tpu_num = 32 then .ok "2x4x4"
  else .error ("Error: unsupported TPU_NUM " ++ toString tpu_num ++ " (allowed: 4, 8, 16, 32)")

/-- The v5 whitelist `{16: ..., 32: ..., 64: ...}.get(tpu_num)` from
`TPUManager.create` (`tpu.py` line 172). -/
def v5AccelType (tpu_num : Int) : Option String :=
  if tpu_num = 16 then some "v5litepod-16"
  else if tpu_num = 32 then some "v5litepod-32"
  else if tpu_num = 64 then some "v5litepod-64"
  else none

/-- `TPUManager.create` (`tpu.py` lines 149–180) up to its single remote call:
`.ok args` is the `gcloud … create` argument vector handed to
`run_streaming` at line 179, `.error` a `ValueError` raised before it.
Python's `if not topology` treats both `None` and `""` as missing.  The v6
branch formats `v6e-{tpu_num}` directly, with no validation. -/
def createArgs (env : TPUEnvConfig) (v : Version) (tpu_num : Int)
    (topology : Option String) : Except String (List String) :=
  let common := ["gcloud", "alpha", "compute", "tpus", "tpu-vm", "create",
    env.tpu_name, "--zone", zoneFor env v, "--project", env.tpu_project,
    "--service-account", env.tpu_service_account, "--spot"]
  match v with
  | .v4 =>
    match topology with
    | none => .error "topology is required for v4"
    | some t =>
      if t = "" then .error "topology is required for v4"
      else .ok (common ++ ["--type", "v4", "--topology", t,
        "--version", "tpu-ubuntu2204-base"])
  | .v5 =>
    match v5AccelType tpu_num with
    | none => .error "Unsupported TPU_NUM for v5: expected 16/32/64"
    | some accel => .ok (common ++ ["--accelerator-type", accel,
        "--version", "v2-alpha-tpuv5-lite"])
  | .v6 => .ok (common ++ ["--accelerator-type", "v6e-" ++ toString tpu_num,
      "--version", "v2-alpha-tpuv6e"])

/-- A fixed example configuration used to instantiate universally quantified
results at concrete inputs. -/
def envEx : TPUEnvConfig where
  tpu_name := "openpi-tpu"
  tpu_project := "my-project"
  tpu_zone_v4 := "us-central2-b"
  tpu_zone_v5 := "us-west4-a"
  tpu_zone_v6 := "us-east5-b"
  tpu_bucket_v4 := "gs://bucket-v4"
  tpu_bucket_v5 := "gs://bucket-v5"
  tpu_bucket_v6 := "gs://bucket-v6"
  tpu_service_account := "sa@my-project.iam.gserviceaccount.com"
  gh_repo_name := "openpi"
  wandb_api_key := "wandb-key"
  gh_token := "gh-token"
  gh_owner := "lihzha"

example : mapV4Topology 8 = .ok "2x2x2" := by decide
example : (mapV4Topology 3).isOk = false := by decide
example : (createArgs envEx .v5 48 none).isOk = false := by decide
example : (createArgs envEx .v6 48 none).isOk = true := by decide
example : describe envEx .v4 ⟨1, "", "argument --zone: oops"⟩
    = .error "Invalid zone for v4: us-central2-b" := by decide

/-! ## One iteration of the watch loop (`watch.py`, `watch_and_run` lines 164–230)

The loop body is a pure decision tree once the results of the remote calls
are fixed, so those results are supplied as an oracle record and the body is
translated clause by clause.  `actions` records every remote *mutation* call
the iteration issues (delete / create / setup / training launch), in order. -/

/-- `WatchConfig` (`watch.py` lines 27–32). -/
structure WatchConfig where
  version : Version
  force_run : Bool
  tpu_num : Int
  extra_args : List String
deriving DecidableEq

/-- The results the external world returns to one loop iteration:
the `describe` subprocess, the success of `mgr.delete` / `mgr.create`, and
the exit codes of the setup step (`run_setup`) and the training launch
(`mgr.raw`). -/
structure WatchOracle where
  describeProc : Proc
  deleteOk : Bool
  createOk : Bool
  setupRc : Int
  trainRc : Int
deriving DecidableEq

/-- A remote mutation call issued by a loop iteration. -/
inductive RemoteAction where
  | delete
  | create
  | setup
  | train
deriving DecidableEq

/-- How one iteration of the `while True` loop ends. -/
inductive StepOutcome where
  | continueLoop
  | exitLoop
  | fatalExit
deriving DecidableEq

/-- `continueLoop`: the iteration sleeps and re-polls; `exitLoop`: the
`return` at line 228 (force-run one-shot success); `fatalExit`: an uncaught
`SystemExit`/`ValueError` raised inside the loop body terminates the
process. -/
structure StepResult where
  outcome : StepOutcome
  actions : List RemoteAction
deriving DecidableEq

/-- The `if run_setup_and_training:` block (`watch.py` lines 203–228).
Line 220 reads `if not mgr.raw(...)`, and `mgr.raw` returns an exit code, so
the source treats exit code 0 as the failure branch; the translation
preserves that truthiness test as written. -/
def setupAndTrain (force : Bool) (o : WatchOracle)
    (acts : List RemoteAction) : StepResult :=
  if o.setupRc ≠ 0 then ⟨.continueLoop, acts ++ [.setup]⟩
  else if o.trainRc = 0 then ⟨.continueLoop, acts ++ [.setup, .train]⟩
  else if force then ⟨.exitLoop, acts ++ [.setup, .train]⟩
  else ⟨.continueLoop, acts ++ [.setup, .train]⟩

/-- One iteration of `watch_and_run`'s `while True` body (`watch.py`
lines 164–230).  The `try`/`except Exception` around `mgr.describe` turns
*any* raised error — including the invalid-zone `RuntimeError` — into a
log-sleep-continue.  `SystemExit` from `_map_v4_topology` and `ValueError`
from `mgr.create` are raised outside that `try` and are not caught. -/
def watchStep (env : TPUEnvConfig) (cfg : WatchConfig) (o : WatchOracle) : StepResult :=
  match describe env cfg.version o.describeProc with
  | .error _ => ⟨.continueLoop, []⟩
  | .ok state =>
    if state = "NOT_FOUND" ∨ state = "PREEMPTED" ∨ state = "STOPPED" then
      -- `if state != "NOT_FOUND" and not mgr.delete(...)`: delete is only
      -- called (and hence only appears in the trace) when state ≠ NOT_FOUND.
      let dacts : List RemoteAction := if state = "NOT_FOUND" then [] else [.delete]
      if state ≠ "NOT_FOUND" ∧ o.deleteOk = false then ⟨.continueLoop, dacts⟩
      else
        match (if cfg.version = Version.v4
               then (mapV4Topology cfg.tpu_num).map some
               else .ok none) with
        | .error _ => ⟨.fatalExit, dacts⟩
        | .ok topo =>
          match createArgs env cfg.version cfg.tpu_num topo with
          | .error _ => ⟨.fatalExit, dacts⟩
          | .ok _ =>
            if o.createOk = false then ⟨.continueLoop, dacts ++ [.create]⟩
            else setupAndTrain cfg.force_run o (dacts ++ [.create])
    else if state = "PERMISSION_DENIED" then ⟨.continueLoop, []⟩
    else if state = "READY" then
      if cfg.force_run then setupAndTrain true o []
      else ⟨.continueLoop, []⟩
    else ⟨.continueLoop, []⟩

/-- A fixed watch configuration for concrete instantiations. -/
def cfgEx (v : Version) (force : Bool) (n : Int) : WatchConfig :=
  ⟨v, force, n, []⟩

example : watchStep envEx (cfgEx .v5 false 16)
    ⟨⟨0, "READY", ""⟩, true, true, 0, 1⟩ = ⟨.continueLoop, []⟩ := by decide
example : watchStep envEx (cfgEx .v5 false 16)
    ⟨⟨0, "PREEMPTED", ""⟩, false, true, 0, 1⟩ = ⟨.continueLoop, [.delete]⟩ := by decide
example : watchStep envEx (cfgEx .v5 false 16)
    ⟨⟨0, "NOT_FOUND", ""⟩, false, true, 0, 1⟩
    = ⟨.continueLoop, [.create, .setup, .train]⟩ := by decide
example : watchStep envEx (cfgEx .v5 true 16)
    ⟨⟨0, "STOPPED", ""⟩, true, true, 0, 1⟩
    = ⟨.exitLoop, [.delete, .create, .setup, .train]⟩ := by decide
example : watchStep envEx (cfgEx .v4 false 3)
    ⟨⟨0, "NOT_FOUND", ""⟩, true, true, 0, 1⟩ = ⟨.fatalExit, []⟩ := by decide
example : watchStep envEx (cfgEx .v5 false 16)
    ⟨⟨1, "", "argument --zone: oops"⟩, true, true, 0, 1⟩
    = ⟨.continueLoop, []⟩ := by decide

/-! ## The activity probe (`tpu.py`, `TPUManager.check_activity` lines 385–416)

The remote probe script runs over SSH; its completed subprocess is the
input.  Only the result parsing after `gcloud_tpu_ssh` returns is local
logic, and it is translated here. -/

/-- Match of `re.search(r"(^|\r?\n)busy(\r?\n|$)", stdout)` at the position
right after the opening group: `busy` followed by end of string, `\n`, or
`\r\n`. -/
def busyAt (l : List Char) : Bool :=
  lsw "busy".data l &&
    ((l.drop 4).isEmpty || lsw "\n".data (l.drop 4) || lsw "\r\n".data (l.drop 4))

/-- The `\r?\n` alternative of the opening group: `busy…` right after some
newline character. -/
def busyAfterNL : List Char → Bool
  | [] => false
  | '\n' :: rest => busyAt rest || busyAfterNL rest
  | _ :: rest => busyAfterNL rest

/-- `re.search(r"(^|\r?\n)busy(\r?\n|$)", stdout)` (source line 416): `busy`
standing on a line of its own somewhere in the output. -/
def busyLineMatch (s : String) : Bool :=
  busyAt s.data || busyAfterNL s.data

/-- `TPUManager.check_activity` (`tpu.py` lines 385–416) after the SSH
subprocess completes: a non-zero exit code is logged and reported as busy
(line 413–415); otherwise the result is the busy-line search over stdout. -/
def checkActivity (p : Proc) : Bool :=
  if p.returncode ≠ 0 then true
  else busyLineMatch p.stdout

example : checkActivity ⟨255, "idle", ""⟩ = true := by decide
example : checkActivity ⟨0, "idle", ""⟩ = false := by decide
example : checkActivity ⟨0, "x\nbusy\ny", ""⟩ = true := by decide
example : checkActivity ⟨0, "busybody", ""⟩ = false := by decide

/-! ## `TPUManager.nuke_all` (`tpu.py` lines 346–350)

Each sub-operation issues one remote SSH invocation and reports
`exit code == 0`; the exit codes are the oracle.  The sub-operations are
plain statements in `nuke_all`'s body (each one the left operand of a
Python `and`), so each is evaluated unconditionally, in source order. -/

/-- One of the three remote sub-operations `nuke_all` runs. -/
inductive TPUCall where
  | tmuxKillAll
  | killJax
  | cleanJaxTmp
deriving DecidableEq

/-- Exit codes of the three SSH invocations underlying `nuke_all`. -/
structure NukeOracle where
  tmuxKillRc : Int
  killJaxRc : Int
  cleanTmpRc : Int
deriving DecidableEq

/-- `TPUManager.tmux_kill_all` (`tpu.py` lines 278–295): result of the
remote kill-server command, as `rc == 0`, with the call it issues. -/
def tmuxKillAllOp (rc : Int) : Bool × TPUCall := (rc == 0, .tmuxKillAll)

/-- `TPUManager.kill_jax` (`tpu.py` lines 297–320). -/
def killJaxOp (rc : Int) : Bool × TPUCall := (rc == 0, .killJax)

/-- `TPUManager.clean_jax_tmp` (`tpu.py` lines 322–344). -/
def cleanJaxTmpOp (rc : Int) : Bool × TPUCall := (rc == 0, .cleanJaxTmp)

/-- `TPUManager.nuke_all` (`tpu.py` lines 346–350):
`ok = tmux_kill_all; ok = kill_jax and ok; ok = clean_jax_tmp and ok`.
Returns the final `ok` together with the calls issued, in order. -/
def nukeAll (o : NukeOracle) : Bool × List TPUCall :=
  let (ok1, c1) := tmuxKillAllOp o.tmuxKillRc
  let (ok2, c2) := killJaxOp o.killJaxRc
  let (ok3, c3) := cleanJaxTmpOp o.cleanTmpRc
  (ok3 && (ok2 && ok1), [c1, c2, c3])

example : nukeAll ⟨0, 0, 0⟩ = (true, [.tmuxKillAll, .killJax, .cleanJaxTmp]) := by decide
example : nukeAll ⟨1, 0, 0⟩ = (false, [.tmuxKillAll, .killJax, .cleanJaxTmp]) := by decide

/-! ## The rendered setup script (`watch.py`, `_build_setup_script` lines 35–115)

`_build_setup_script` renders a fixed bash template with
`Template.safe_substitute`, replacing exactly `${WANDB_API_KEY}`,
`${OPENPI_DATA_HOME}` (= bucket + `/cache`), `${GH_TOKEN}`, `${GH_REPO}` and
`${GH_OWNER}`; `$HOME`, `$PATH`, `$KEY_PATH` and the other placeholders are
not in the mapping and survive into the script as literal shell text.  The
spec asks for the idempotency property "on the templating logic directly,
independent of remote execution", so the rendered script's effect on the
remote files it touches is modelled as a state transformer, translated
command by command from the template.  Externals (the uv installer, the
keyscan output, the deploy-key API, the clone) are oracle inputs. -/

/-- The five values substituted into the template
(`watch.py` lines 108–114). -/
structure SetupParams where
  wandbApiKey : String
  openpiDataHome : String
  ghToken : String
  ghRepo : String
  ghOwner : String
deriving DecidableEq

/-- `_build_setup_script`'s substitution inputs for a generation
(`watch.py` lines 36–40 and 108–114). -/
def setupParams (env : TPUEnvConfig) (v : Version) : SetupParams :=
  ⟨env.wandb_api_key, bucketFor env v ++ "/cache", env.gh_token,
   env.gh_repo_name, env.gh_owner⟩

/-- Results of the script's external calls during one run. -/
structure SetupOracle where
  uvOk : Bool
  keyscanLines : List String
  deployKeyHttp : String
  cloneOk : Bool
deriving DecidableEq

/-- The slice of the remote worker state the script reads or writes:
the three files it edits (as line lists), the two existence guards it
tests, and counters for the two expensive actions the spec says must be
skipped on re-runs. -/
structure RemoteFS where
  zshrc : List String
  knownHosts : List String
  sshConfig : List String
  keyFileExists : Bool
  repoGitExists : Bool
  keygenCount : Nat
  cloneCount : Nat
deriving DecidableEq

/-- The nine lines the script appends to `~/.zshrc` (template lines 44–52),
after substitution.  `$HOME` and `$PATH` are not substituted by
`safe_substitute` and stay literal. -/
def zshrcLines (p : SetupParams) : List String :=
  ["export WANDB_API_KEY=\"" ++ p.wandbApiKey ++ "\"",
   "export OPENPI_DATA_HOME=\"" ++ p.openpiDataHome ++ "\"",
   "export GH_TOKEN=\"" ++ p.ghToken ++ "\"",
   "export GH_OWNER=\"" ++ p.ghOwner ++ "\"",
   "export GH_REPO=\"" ++ p.ghRepo ++ "\"",
   "export READ_ONLY=true",
   "export PATH=\"$HOME/.local/bin:$PATH\"",
   "git config --global credential.\"https://github.com\".helper \"\"",
   "export GIT_TERMINAL_PROMPT=0"]

/-- The `Host` block the script appends to `~/.ssh/config` when missing
(template lines 91–97); `${KEY_PATH}` is expanded by the shell at run time
to `$HOME/.ssh/<repo>_deploy`, kept abstract here via the literal `$HOME`. -/
def sshConfigBlock (p : SetupParams) : List String :=
  ["Host github-" ++ p.ghRepo,
   "  HostName github.com",
   "  User git",
   "  IdentityFile $HOME/.ssh/" ++ p.ghRepo ++ "_deploy",
   "  IdentitiesOnly yes"]

/-- One execution of the rendered setup script against a worker, returning
the final state and whether the script exited successfully.  Step order and
guards follow the template:
1. lines 44–52: unconditional `echo '…' >> ~/.zshrc` for each export line;
2. line 54: uv installer (`set -e` aborts the run on failure);
3. lines 64–66: `ssh-keygen` only if `[ ! -f "$KEY_PATH" ]`;
4. line 68: unconditional `ssh-keyscan … >> ~/.ssh/known_hosts`;
5. lines 77–87: deploy-key POST, `exit 1` unless HTTP 201 or 422;
6. lines 90–98: append the `Host` block only if
   `grep -q "^Host github-<repo>$" ~/.ssh/config` finds no such line;
7. lines 102–106: `git clone` + `uv sync` only if `[ ! -d "<repo>/.git" ]`
   (failure of the clone aborts at the following `cd` under `set -e`). -/
def runSetupScript (p : SetupParams) (o : SetupOracle) (fs : RemoteFS) :
    RemoteFS × Bool :=
  let fs := { fs with zshrc := fs.zshrc ++ zshrcLines p }
  if o.uvOk = false then (fs, false)
  else
    let fs := if fs.keyFileExists then fs
      else { fs with keyFileExists := true, keygenCount := fs.keygenCount + 1 }
    let fs := { fs with knownHosts := fs.knownHosts ++ o.keyscanLines }
    if o.deployKeyHttp ≠ "201" ∧ o.deployKeyHttp ≠ "422" then (fs, false)
    else
      let fs := if fs.sshConfig.contains ("Host github-" ++ p.ghRepo) then fs
        else { fs with sshConfig := fs.sshConfig ++ sshConfigBlock p }
      if fs.repoGitExists then (fs, true)
      else
        let fs := { fs with cloneCount := fs.cloneCount + 1 }
        if o.cloneOk then ({ fs with repoGitExists := true }, true)
        else (fs, false)

/-- Concrete substitution values for the worked examples. -/
def paramsEx : SetupParams := setupParams envEx .v4

/-- A concrete oracle: every external call succeeds and the keyscan returns
one host-key line. -/
def oracleEx : SetupOracle :=
  ⟨true, ["github.com ssh-ed25519 AAAAC3NzaC1lZDI1NTE5"], "201", true⟩

/-- A blank worker, before any setup run. -/
def blankFS : RemoteFS := ⟨[], [], [], false, false, 0, 0⟩

/-- A worker on which the setup script has already run once to completion:
the "already-initialized remote filesystem/ssh-config" of the claim. -/
def initializedFS : RemoteFS := (runSetupScript paramsEx oracleEx blankFS).1

example : initializedFS.cloneCount = 1 := by decide
example : initializedFS.keygenCount = 1 := by decide
example : initializedFS.repoGitExists = true := by decide
example : (initializedFS.zshrc.count "export READ_ONLY=true") = 1 := by decide
example :
    ((runSetupScript paramsEx oracleEx initializedFS).1.zshrc.count
      "export READ_ONLY=true") = 2 := by decide
example : (runSetupScript paramsEx oracleEx initializedFS).1.cloneCount = 1 := by decide

/-! ## Helper lemmas about the `re.search` model -/

/-- A match at the head of the list is a match. -/
theorem searchAux_of_here (p : List Char → Bool) (l : List Char)
    (h : p l = true) : searchAux p l = true := by
  cases l with
  | nil => simpa [searchAux] using h
  | cons c rest => simp [searchAux, h]

/-- A match somewhere in `l` is a match somewhere in `pre ++ l`. -/
theorem searchAux_append (p : List Char → Bool) (pre l : List Char)
    (h : searchAux p l = true) : searchAux p (pre ++ l) = true := by
  induction pre with
  | nil => simpa using h
  | cons c cs ih => simp [searchAux, ih]

/-- `404…` matches the not-found alternation at its head. -/
theorem nfAt_404 (t : List Char) : nfAt ("404".data ++ t) = true := rfl

/-- `not found…` (one literal space) matches `not\s*found` at its head. -/
theorem nfAt_notFound (t : List Char) : nfAt ("not found".data ++ t) = true := rfl

/-- `permission_denied…` matches the permission alternation at its head. -/
theorem pdAt_permission (t : List Char) :
    pdAt ("permission_denied".data ++ t) = true := rfl

/-- `forbidden…` matches the permission alternation at its head. -/
theorem pdAt_forbidden (t : List Char) :
    pdAt ("forbidden".data ++ t) = true := rfl

/-- `403…` matches the permission alternation at its head. -/
theorem pdAt_403 (t : List Char) : pdAt ("403".data ++ t) = true := rfl

/-! ## Claims C4 and C5 — the prober's NOT_FOUND / PERMISSION_DENIED mapping -/

/-- C4, counterexample: the claim says output containing `404` maps to
NOT_FOUND *regardless of exit code*, but on exit code 0 the prober returns
the raw stdout verbatim (source line 47–48) and never consults the
patterns: a successful describe whose stdout is `404` yields the state
`"404"`, not NOT_FOUND. -/
theorem c4_counterexample :
    gcloudDescribeState ⟨0, "404", ""⟩ = .ok (0, "404") ∧
    gcloudDescribeState ⟨0, "404", ""⟩ ≠ .ok (0, "NOT_FOUND") := by decide

/-- C4 (amended): for every describe invocation that exits non-zero, if the
diagnostic output the code inspects (stderr if non-empty, else stdout,
lower-cased) contains `404` or `not found`, the prober maps the result to
NOT_FOUND, whatever the non-zero exit code was. -/
theorem c4_notfound_on_failure (p : Proc) (hrc : p.returncode ≠ 0)
    (h : (∃ a b, (describeOut p).data = a ++ ("404".data ++ b)) ∨
         (∃ a b, (describeOut p).data = a ++ ("not found".data ++ b))) :
    gcloudDescribeState p = .ok (0, "NOT_FOUND") := by
  have hb : searchNotFound (describeOut p).data = true := by
    rcases h with ⟨a, b, hab⟩ | ⟨a, b, hab⟩ <;> rw [hab]
    · exact searchAux_append _ _ _ (searchAux_of_here _ _ (nfAt_404 b))
    · exact searchAux_append _ _ _ (searchAux_of_here _ _ (nfAt_notFound b))
  unfold gcloudDescribeState
  rw [if_neg hrc]
  simp [hb]

/-- C4 witness: a failing describe (exit 1) whose stderr is `ERROR: 404`
is mapped to NOT_FOUND. -/
theorem c4_witness :
    gcloudDescribeState ⟨1, "", "ERROR: 404"⟩ = .ok (0, "NOT_FOUND") :=
  c4_notfound_on_failure ⟨1, "", "ERROR: 404"⟩ (by decide)
    (Or.inl ⟨"error: ".data, [], by decide⟩)

/-- C5, counterexample: output containing `forbidden` does not always map to
PERMISSION_DENIED — the not-found pattern is tested first (source line 50),
so a failing describe with output `404 Forbidden` maps to NOT_FOUND; and as
in C4, on exit code 0 the patterns are never consulted at all. -/
theorem c5_counterexample :
    gcloudDescribeState ⟨1, "", "404 Forbidden"⟩ = .ok (0, "NOT_FOUND") ∧
    gcloudDescribeState ⟨1, "", "404 Forbidden"⟩ ≠ .ok (0, "PERMISSION_DENIED") := by
  decide

/-- C5 (amended): for every describe invocation that exits non-zero, if the
diagnostic output the code inspects (stderr if non-empty, else stdout,
lower-cased) contains `permission_denied`, `forbidden`, or `403`, and does
not also match the not-found pattern (which is tested first), the prober
maps the result to PERMISSION_DENIED — a successful probe (`rc = 0`), not
an error. -/
theorem c5_permdenied_on_failure (p : Proc) (hrc : p.returncode ≠ 0)
    (hnf : searchNotFound (describeOut p).data = false)
    (h : (∃ a b, (describeOut p).data = a ++ ("permission_denied".data ++ b)) ∨
         (∃ a b, (describeOut p).data = a ++ ("forbidden".data ++ b)) ∨
         (∃ a b, (describeOut p).data = a ++ ("403".data ++ b))) :
    gcloudDescribeState p = .ok (0, "PERMISSION_DENIED") := by
  have hb : searchPermDenied (describeOut p).data = true := by
    rcases h with ⟨a, b, hab⟩ | ⟨a, b, hab⟩ | ⟨a, b, hab⟩ <;> rw [hab]
    · exact searchAux_append _ _ _ (searchAux_of_here _ _ (pdAt_permission b))
    · exact searchAux_append _ _ _ (searchAux_of_here _ _ (pdAt_forbidden b))
    · exact searchAux_append _ _ _ (searchAux_of_here _ _ (pdAt_403 b))
  unfold gcloudDescribeState
  rw [if_neg hrc]
  simp [hnf, hb]

/-- C5 witness: a failing describe (exit 1) whose stderr is `403 Forbidden`
is mapped to PERMISSION_DENIED. -/
theorem c5_witness :
    gcloudDescribeState ⟨1, "", "403 Forbidden"⟩ = .ok (0, "PERMISSION_DENIED") :=
  c5_permdenied_on_failure ⟨1, "", "403 Forbidden"⟩ (by decide) (by decide)
    (Or.inr (Or.inl ⟨"403 ".data, [], by decide⟩))

/-! ## Claims C1, C6, C7 — the watch loop -/

/-- C1 (code bug, evaluated at the failing input): on a describe subprocess
whose output matches the invalid-zone pattern, the prober does surface a
fatal configuration error to its caller (`describe` returns the raised
`RuntimeError`), but the watch-loop iteration swallows it — the
`except Exception` at `watch.py` lines 168–171 catches the `RuntimeError`,
logs, sleeps, and continues, so the loop retries this error forever instead
of aborting as the claim (and spec sections 4.2 and 7) require. -/
theorem c1_invalid_zone_is_retried :
    describe envEx .v4 ⟨1, "", "ERROR: argument --zone: expected one argument"⟩
      = .error "Invalid zone for v4: us-central2-b" ∧
    watchStep envEx (cfgEx .v4 false 8)
      ⟨⟨1, "", "ERROR: argument --zone: expected one argument"⟩, true, true, 0, 1⟩
      = ⟨.continueLoop, []⟩ := by decide

/-- C6: in every loop iteration that observes PREEMPTED or STOPPED and whose
delete fails, the only remote mutation call issued is the delete itself —
in particular no create — and the iteration degrades to sleep-and-repoll. -/
theorem c6_delete_failure_blocks_create (env : TPUEnvConfig) (cfg : WatchConfig)
    (o : WatchOracle)
    (hs : describe env cfg.version o.describeProc = .ok "PREEMPTED" ∨
          describe env cfg.version o.describeProc = .ok "STOPPED")
    (hd : o.deleteOk = false) :
    watchStep env cfg o = ⟨.continueLoop, [.delete]⟩ ∧
    RemoteAction.create ∉ (watchStep env cfg o).actions := by
  have hw : watchStep env cfg o = ⟨.continueLoop, [.delete]⟩ := by
    rcases hs with hs | hs <;> unfold watchStep <;> rw [hs, hd] <;> rfl
  exact ⟨hw, by rw [hw]; decide⟩

/-- C6 witness: PREEMPTED with a failing delete issues only the delete and
continues. -/
theorem c6_witness :
    watchStep envEx (cfgEx .v5 false 16) ⟨⟨0, "PREEMPTED", ""⟩, false, true, 0, 1⟩
      = ⟨.continueLoop, [.delete]⟩ ∧
    RemoteAction.create ∉ (watchStep envEx (cfgEx .v5 false 16)
      ⟨⟨0, "PREEMPTED", ""⟩, false, true, 0, 1⟩).actions :=
  c6_delete_failure_blocks_create envEx (cfgEx .v5 false 16)
    ⟨⟨0, "PREEMPTED", ""⟩, false, true, 0, 1⟩ (Or.inl (by decide)) rfl

/-- C7: a loop iteration with force-run = false that observes READY performs
zero remote mutation calls — no delete, create, setup, or training launch —
and just sleeps and re-polls. -/
theorem c7_ready_without_force_is_idle (env : TPUEnvConfig) (cfg : WatchConfig)
    (o : WatchOracle)
    (hs : describe env cfg.version o.describeProc = .ok "READY")
    (hf : cfg.force_run = false) :
    watchStep env cfg o = ⟨.continueLoop, []⟩ ∧
    (watchStep env cfg o).actions = [] := by
  have hw : watchStep env cfg o = ⟨.continueLoop, []⟩ := by
    unfold watchStep; rw [hs, hf]; rfl
  exact ⟨hw, by rw [hw]⟩

/-- C7 witness: READY with force-run = false leaves the iteration with an
empty mutation trace. -/
theorem c7_witness :
    watchStep envEx (cfgEx .v5 false 16) ⟨⟨0, "READY", ""⟩, true, true, 0, 1⟩
      = ⟨.continueLoop, []⟩ ∧
    (watchStep envEx (cfgEx .v5 false 16)
      ⟨⟨0, "READY", ""⟩, true, true, 0, 1⟩).actions = [] :=
  c7_ready_without_force_is_idle envEx (cfgEx .v5 false 16)
    ⟨⟨0, "READY", ""⟩, true, true, 0, 1⟩ (by decide) rfl

/-! ## Claim C2 — idempotency of the rendered setup script -/

/-- The worker state after the setup script has run twice more against the
already-initialized worker. -/
def twiceFS : RemoteFS :=
  (runSetupScript paramsEx oracleEx
    (runSetupScript paramsEx oracleEx initializedFS).1).1

/-- C2, counterexample: executing the rendered script twice against an
already-initialized worker *does* duplicate config lines.  The nine
`echo 'export …' >> ~/.zshrc` appends (template lines 44–52) and the
`ssh-keyscan … >> ~/.ssh/known_hosts` append (line 68) are unconditional,
so after two further runs the `READ_ONLY` line sits in `~/.zshrc` three
times and the keyscan host key in `known_hosts` three times (it was in each
once after initialization). -/
theorem c2_counterexample :
    initializedFS.zshrc.count "export READ_ONLY=true" = 1 ∧
    twiceFS.zshrc.count "export READ_ONLY=true" = 3 ∧
    initializedFS.knownHosts.count "github.com ssh-ed25519 AAAAC3NzaC1lZDI1NTE5" = 1 ∧
    twiceFS.knownHosts.count "github.com ssh-ed25519 AAAAC3NzaC1lZDI1NTE5" = 3 := by
  decide

/-- C2 (amended): the rendered script does skip re-cloning when the repo
directory already has its version-control marker, skips SSH key generation
when the key file exists, and skips the SSH-config `Host` block when it is
already present; but it appends the environment-export lines to `~/.zshrc`
unconditionally on every run (and likewise the keyscan output to
`known_hosts`), so re-running duplicates those config lines. -/
theorem c2_setup_script_guards (p : SetupParams) (o : SetupOracle)
    (fs : RemoteFS)
    (hgit : fs.repoGitExists = true) (hkey : fs.keyFileExists = true)
    (hcfg : fs.sshConfig.contains ("Host github-" ++ p.ghRepo) = true) :
    (runSetupScript p o fs).1.cloneCount = fs.cloneCount ∧
    (runSetupScript p o fs).1.keygenCount = fs.keygenCount ∧
    (runSetupScript p o fs).1.sshConfig = fs.sshConfig ∧
    (runSetupScript p o fs).1.zshrc = fs.zshrc ++ zshrcLines p := by
  rcases o with ⟨uvOk, ks, http, cl⟩
  cases uvOk
  · simp [runSetupScript, hgit, hkey, hcfg]
  · simp only [runSetupScript, hgit, hkey, hcfg, if_true, if_false]
    by_cases hh : ¬http = "201" ∧ ¬http = "422"
    · simp only [if_pos hh]
      exact ⟨rfl, rfl, rfl, rfl⟩
    · simp only [if_neg hh]
      exact ⟨rfl, rfl, rfl, rfl⟩

/-- C2 witness: one further run on the initialized worker keeps the clone
count, the keygen count and the ssh-config block unchanged, and appends the
export lines once more. -/
theorem c2_witness :
    (runSetupScript paramsEx oracleEx initializedFS).1.cloneCount
      = initializedFS.cloneCount ∧
    (runSetupScript paramsEx oracleEx initializedFS).1.keygenCount
      = initializedFS.keygenCount ∧
    (runSetupScript paramsEx oracleEx initializedFS).1.sshConfig
      = initializedFS.sshConfig ∧
    (runSetupScript paramsEx oracleEx initializedFS).1.zshrc
      = initializedFS.zshrc ++ zshrcLines paramsEx :=
  c2_setup_script_guards paramsEx oracleEx initializedFS
    (by decide) (by decide) (by decide)

/-! ## Claim C3 — chip-count validation in `create` -/

/-- C3, counterexample: an unsupported chip count does *not* always raise
before a remote call.  Chip count 3 is unsupported (the code's own v4
whitelist rejects it), yet `create("v4", tpu_num=3, topology="2x2x2")`
builds the argument vector and issues the remote call; and the v6 branch
formats `v6e-{tpu_num}` with no validation at all, so e.g. 48 goes straight
to the remote call. -/
theorem c3_counterexample :
    (mapV4Topology 3).isOk = false ∧
    (createArgs envEx .v4 3 (some "2x2x2")).isOk = true ∧
    (createArgs envEx .v6 48 none).isOk = true := by decide

/-- C3 (amended): only the v5 branch of `create` validates the chip count —
any count outside {16, 32, 64} raises `ValueError` before the remote call;
the v4 branch raises before the remote call only when no topology was
supplied, the chip count itself being validated by the watch layer's
`_map_v4_topology` (counts outside {4, 8, 16, 32} abort with `SystemExit`);
and the v6 branch accepts any chip count without local validation.  In the
embedding, `.error` is by construction a raise that precedes the single
`run_streaming` remote call. -/
theorem c3_create_validation (env : TPUEnvConfig) (n : Int) :
    ((n ≠ 16 ∧ n ≠ 32 ∧ n ≠ 64) →
      ∀ topo, (createArgs env .v5 n topo).isOk = false) ∧
    (createArgs env .v4 n none).isOk = false ∧
    ((n ≠ 4 ∧ n ≠ 8 ∧ n ≠ 16 ∧ n ≠ 32) → (mapV4Topology n).isOk = false) ∧
    (createArgs env .v6 n none).isOk = true := by
  refine ⟨fun ⟨h1, h2, h3⟩ topo => ?_, by simp [createArgs, Except.isOk, Except.toBool],
    fun ⟨h1, h2, h3, h4⟩ => ?_, by simp [createArgs, Except.isOk, Except.toBool]⟩
  · simp [createArgs, v5AccelType, Except.isOk, Except.toBool, h1, h2, h3]
  · simp [mapV4Topology, Except.isOk, Except.toBool, h1, h2, h3, h4]

/-- C3 witness: at chip count 48, v5 create raises before the remote call,
v4 create without topology raises, the v4 whitelist rejects 48, and v6
create proceeds to the remote call. -/
theorem c3_witness :
    (createArgs envEx .v5 48 none).isOk = false ∧
    (createArgs envEx .v4 48 none).isOk = false ∧
    (mapV4Topology 48).isOk = false ∧
    (createArgs envEx .v6 48 none).isOk = true :=
  ⟨(c3_create_validation envEx 48).1 (by decide) none,
   (c3_create_validation envEx 48).2.1,
   (c3_create_validation envEx 48).2.2.1 (by decide),
   (c3_create_validation envEx 48).2.2.2⟩

/-! ## Claim C8 — the sizing examples -/

/-- C8: the sizing functions compute exactly the specified values: v4 chip
count 8 maps to topology `2x2x2` and 32 to `2x4x4` while 3 is rejected;
v5 chip count 16 yields accelerator type `v5litepod-16` in the create
argument vector while 48 raises the fatal `ValueError`. -/
theorem c8_sizing_examples (env : TPUEnvConfig) :
    mapV4Topology 8 = .ok "2x2x2" ∧
    mapV4Topology 32 = .ok "2x4x4" ∧
    (mapV4Topology 3).isOk = false ∧
    createArgs env .v5 16 none =
      .ok ["gcloud", "alpha", "compute", "tpus", "tpu-vm", "create",
        env.tpu_name, "--zone", env.tpu_zone_v5, "--project", env.tpu_project,
        "--service-account", env.tpu_service_account, "--spot",
        "--accelerator-type", "v5litepod-16", "--version", "v2-alpha-tpuv5-lite"] ∧
    createArgs env .v5 48 none =
      .error "Unsupported TPU_NUM for v5: expected 16/32/64" := by
  exact ⟨by decide, by decide, by decide, rfl, rfl⟩

/-! ## Claim C9 — the activity probe is fail-safe -/

/-- C9: whenever the activity probe's SSH invocation exits non-zero,
`check_activity` reports busy; and an idle report is only possible on a
successful probe whose output contains no busy line. -/
theorem c9_probe_failure_is_busy (p : Proc) :
    (p.returncode ≠ 0 → checkActivity p = true) ∧
    (checkActivity p = false →
      p.returncode = 0 ∧ busyLineMatch p.stdout = false) := by
  unfold checkActivity
  by_cases h : p.returncode = 0 <;> simp [h]

/-- C9 witness: a probe whose SSH invocation exits 255 is reported busy. -/
theorem c9_witness : checkActivity ⟨255, "idle", ""⟩ = true :=
  (c9_probe_failure_is_busy ⟨255, "idle", ""⟩).1 (by decide)

/-! ## Claim C10 — `nuke_all` runs all three sub-operations -/

/-- C10: `nuke_all` always issues the three sub-operations in source order —
tmux kill-all, then kill-jax, then clean-jax-tmp — regardless of earlier
failures (each is the unconditionally evaluated left operand of a Python
`and`), and its result is true exactly when all three sub-operations
returned true. -/
theorem c10_nuke_all_sequence (o : NukeOracle) :
    (nukeAll o).2 = [.tmuxKillAll, .killJax, .cleanJaxTmp] ∧
    ((nukeAll o).1 = true ↔
      (tmuxKillAllOp o.tmuxKillRc).1 = true ∧
      (killJaxOp o.killJaxRc).1 = true ∧
      (cleanJaxTmpOp o.cleanTmpRc).1 = true) := by
  refine ⟨rfl, ?_⟩
  simp only [nukeAll, tmuxKillAllOp, killJaxOp, cleanJaxTmpOp, Bool.and_eq_true]
  tauto

example : gcloudDescribeState ⟨0, " READY ", ""⟩ = .ok (0, "READY") := by decide
example : gcloudDescribeState ⟨0, "", ""⟩ = .ok (0, "UNKNOWN") := by decide
example : gcloudDescribeState ⟨1, "", "ERROR: NOT found here"⟩ = .ok (0, "NOT_FOUND") := by decide
example : gcloudDescribeState ⟨1, "", "notfound"⟩ = .ok (0, "NOT_FOUND") := by decide
example : gcloudDescribeState ⟨1, "", "E: 403 Forbidden"⟩ = .ok (0, "PERMISSION_DENIED") := by decide
example : gcloudDescribeState ⟨1, "", "argument --zone: bad"⟩ = .ok (2, "INVALID_ZONE") := by decide
example : gcloudDescribeState ⟨1, "", "a\nlast line"⟩ = .ok (1, "last line") := by decide
example : gcloudDescribeState ⟨1, "", "  "⟩ = .error "IndexError: list index out of range" := by decide
example : gcloudDescribeState ⟨1, "", ""⟩ = .ok (1, "ERROR") := by decide
